import Mathlib

/-!
Shallow embedding of `SceneManager.cpp` (CS-330 final project): the texture
registry, material table, shader-state setters, light rig setup, the render
call sequences, and the transform composer.  Definitions mirror the source
functions; spec-side definitions (named `spec...`) restate the specification
for refinement comparisons.
-/

set_option maxHeartbeats 1000000
set_option maxRecDepth 8000

namespace SceneMgr

/-- A registered texture record: `TEXTURE_INFO { GLuint ID; std::string tag; }`.
GL texture names are unsigned, modelled as `Nat`. -/
structure TEXTURE_INFO where
  ID : Nat
  tag : String
deriving DecidableEq, Repr

/-- The OpenGL texture-name state: `glGenTextures` hands out fresh names
(nonzero, here sequential from `nextName`) and records them as allocated;
`glDeleteTextures` would remove a name from `allocated`. -/
structure GLState where
  nextName : Nat
  allocated : List Nat
deriving DecidableEq, Repr

/-- `glGenTextures(1, &id)`: allocate one fresh texture name. -/
def glGenTexture (gl : GLState) : Nat × GLState :=
  (gl.nextName, ⟨gl.nextName + 1, gl.allocated ++ [gl.nextName]⟩)

/-- Modelled from the spec: `SceneManager.h` is not part of the sources; per
the spec the registry array `m_textureIDs` has a fixed capacity of 16 slots
("capped at a fixed maximum slot count (16, matching the target API's minimum
guaranteed texture-unit count)"). -/
def MAX_TEXTURES : Nat := 16

/-- The texture-registry portion of `SceneManager` state: the GL name state
plus the `m_textureIDs` array contents.  The array is written only at index
`m_loadedTextures` followed by an increment, so the registered prefix is
modelled as a list whose length is `m_loadedTextures`. -/
structure TexState where
  gl : GLState
  m_textureIDs : List TEXTURE_INFO
deriving DecidableEq, Repr

/-- `m_loadedTextures` counter. -/
def TexState.m_loadedTextures (st : TexState) : Nat := st.m_textureIDs.length

/-- Constructor state: `m_loadedTextures = 0`, no GL textures allocated. -/
def initialTexState : TexState := ⟨⟨1, []⟩, []⟩

/-- Result of `stbi_load`: `none` when the file could not be decoded,
otherwise the image dimensions and channel count. -/
structure ImageData where
  width : Int
  height : Int
  colorChannels : Int
deriving DecidableEq, Repr

/-- `SceneManager::CreateGLTexture`.  On decode success, `glGenTextures` runs
first; then the channel count selects `GL_RGB8` (3) or `GL_RGBA8` (4); any
other channel count returns `false` with nothing registered.  On the
supported formats the record `{ID = textureID, tag}` is appended at index
`m_loadedTextures`, which is then incremented, with no capacity check. -/
def createGLTexture (image : Option ImageData) (tag : String) (st : TexState) :
    Bool × TexState :=
  match image with
  | some img =>
    let r := glGenTexture st.gl
    let textureID := r.1
    let gl1 := r.2
    if img.colorChannels = 3 then
      (true, ⟨gl1, st.m_textureIDs ++ [⟨textureID, tag⟩]⟩)
    else if img.colorChannels = 4 then
      (true, ⟨gl1, st.m_textureIDs ++ [⟨textureID, tag⟩]⟩)
    else
      (false, ⟨gl1, st.m_textureIDs⟩)
  | none => (false, st)

/-- The loop body of `SceneManager::DestroyGLTextures`: for each registered
entry `i`, the source executes `glGenTextures(1, &m_textureIDs[i].ID)` —
allocating a fresh texture name and storing it over the entry's ID. -/
def destroyLoop : List TEXTURE_INFO → GLState → List TEXTURE_INFO × GLState
  | [], gl => ([], gl)
  | t :: rest, gl =>
    let r := glGenTexture gl
    let p := destroyLoop rest r.2
    (⟨r.1, t.tag⟩ :: p.1, p.2)

/-- `SceneManager::DestroyGLTextures` as written in the source. -/
def destroyGLTextures (st : TexState) : TexState :=
  let p := destroyLoop st.m_textureIDs st.gl
  ⟨p.2, p.1⟩

/-- The `while` loop of `SceneManager::FindTextureID`: first entry whose tag
matches wins; `-1` when no entry matches (GLuint ID returned as `int`). -/
def findTextureIDLoop : List TEXTURE_INFO → String → Int
  | [], _ => -1
  | t :: rest, tag =>
    if t.tag = tag then (t.ID : Int) else findTextureIDLoop rest tag

/-- `SceneManager::FindTextureID`. -/
def findTextureID (st : TexState) (tag : String) : Int :=
  findTextureIDLoop st.m_textureIDs tag

/-- The `while` loop of `SceneManager::FindTextureSlot`, carrying the running
`index`; first matching entry's index wins, `-1` on miss. -/
def findTextureSlotLoop : List TEXTURE_INFO → String → Int → Int
  | [], _, _ => -1
  | t :: rest, tag, index =>
    if t.tag = tag then index else findTextureSlotLoop rest tag (index + 1)

/-- `SceneManager::FindTextureSlot`. -/
def findTextureSlot (st : TexState) (tag : String) : Int :=
  findTextureSlotLoop st.m_textureIDs tag 0

/-- A 3-component float vector (`glm::vec3`), modelled over `ℚ` since every
value the scene code passes is an exact decimal literal. -/
structure Vec3 where
  x : ℚ
  y : ℚ
  z : ℚ
deriving DecidableEq, Repr

/-- `OBJECT_MATERIAL { vec3 diffuseColor; vec3 specularColor; float shininess;
std::string tag; }`. -/
structure OBJECT_MATERIAL where
  diffuseColor : Vec3
  specularColor : Vec3
  shininess : ℚ
  tag : String
deriving DecidableEq, Repr

/-- The `while` loop of `SceneManager::FindMaterial`: scan for the first entry
whose tag matches; on a match copy its diffuse/specular/shininess into the
out-parameter `material` (the out-parameter's own tag field is untouched); on
no match the out-parameter is left as passed in. -/
def findMaterialLoop (mats : List OBJECT_MATERIAL) (tag : String)
    (material : OBJECT_MATERIAL) : OBJECT_MATERIAL :=
  match mats with
  | [] => material
  | m :: rest =>
    if m.tag = tag then
      { material with
        diffuseColor := m.diffuseColor
        specularColor := m.specularColor
        shininess := m.shininess }
    else findMaterialLoop rest tag material

/-- `SceneManager::FindMaterial`: returns `false` only when
`m_objectMaterials.size() == 0`; otherwise it runs the scan loop and then
returns `true` unconditionally — also when no entry matched the tag. -/
def findMaterial (mats : List OBJECT_MATERIAL) (tag : String)
    (material : OBJECT_MATERIAL) : Bool × OBJECT_MATERIAL :=
  if mats.length = 0 then (false, material)
  else (true, findMaterialLoop mats tag material)

/-- One call on the `ShaderManager` uniform interface.  `setMat4Model`
records the `setMat4Value("model", ...)` call of `SetTransformations` by the
transform parameters that produced the matrix (the matrix itself is modelled
over `ℝ` by `setTransformationsModel` below). -/
inductive ShaderCall where
  | setBool (name : String) (value : Bool)
  | setInt (name : String) (value : Int)
  | setFloat (name : String) (value : ℚ)
  | setSampler2D (name : String) (value : Int)
  | setVec2 (name : String) (u v : ℚ)
  | setVec3 (name : String) (vx vy vz : ℚ)
  | setVec4 (name : String) (vx vy vz vw : ℚ)
  | setMat4Model (name : String) (scaleXYZ : Vec3)
      (xDeg yDeg zDeg : ℚ) (positionXYZ : Vec3)
deriving DecidableEq, Repr

/-- Issue a batch of calls through the `m_pShaderManager` pointer without a
null check: when the pointer is null (`hasShader = false`) this is a null
dereference, modelled as an error. -/
def uploads (hasShader : Bool) (calls : List ShaderCall) :
    Except Unit (List ShaderCall) :=
  if hasShader then .ok calls else .error ()

/-- `SceneManager::SetTransformations`: computes
`translation * rotationZ * rotationY * rotationX * scale` and uploads it as
"model" only inside the `if (NULL != m_pShaderManager)` guard; with a null
shader manager it uploads nothing and returns normally. -/
def setTransformations (hasShader : Bool) (scaleXYZ : Vec3)
    (xDeg yDeg zDeg : ℚ) (positionXYZ : Vec3) :
    Except Unit (List ShaderCall) :=
  if hasShader then
    .ok [.setMat4Model "model" scaleXYZ xDeg yDeg zDeg positionXYZ]
  else .ok []

/-- `SceneManager::SetShaderColor`: guarded by the null check; inside it
disables texturing and uploads the color (`setIntValue(bUseTexture, false)`
passes the bool as int 0). -/
def setShaderColor (hasShader : Bool) (r g b a : ℚ) :
    Except Unit (List ShaderCall) :=
  if hasShader then
    .ok [.setInt "bUseTexture" 0, .setVec4 "objectColor" r g b a]
  else .ok []

/-- `SceneManager::SetShaderTexture`: guarded by the null check; inside it
enables texturing and uploads the `FindTextureSlot` result as the sampler. -/
def setShaderTexture (hasShader : Bool) (st : TexState) (textureTag : String) :
    Except Unit (List ShaderCall) :=
  if hasShader then
    .ok [.setInt "bUseTexture" 1,
         .setSampler2D "objectTexture" (findTextureSlot st textureTag)]
  else .ok []

/-- `SceneManager::SetTextureUVScale`: guarded by the null check. -/
def setTextureUVScale (hasShader : Bool) (u v : ℚ) :
    Except Unit (List ShaderCall) :=
  if hasShader then .ok [.setVec2 "UVscale" u v] else .ok []

/-- `SceneManager::SetShaderMaterial`: when the material table is non-empty
it calls `FindMaterial` with the uninitialized local `material` and, when
that returns `true`, uploads the three material uniforms through
`m_pShaderManager` with NO null check.  `localMat` stands for the
indeterminate value of the uninitialized local `OBJECT_MATERIAL material`. -/
def setShaderMaterial (hasShader : Bool) (mats : List OBJECT_MATERIAL)
    (materialTag : String) (localMat : OBJECT_MATERIAL) :
    Except Unit (List ShaderCall) :=
  if 0 < mats.length then
    let r := findMaterial mats materialTag localMat
    if r.1 = true then
      uploads hasShader
        [.setVec3 "material.diffuseColor"
            r.2.diffuseColor.x r.2.diffuseColor.y r.2.diffuseColor.z,
         .setVec3 "material.specularColor"
            r.2.specularColor.x r.2.specularColor.y r.2.specularColor.z,
         .setFloat "material.shininess" r.2.shininess]
    else .ok []
  else .ok []

/-- The uniform name `"pointLights[" + std::to_string(i) + "].bActive"`. -/
def pointLightActiveName (i : Nat) : String :=
  "pointLights[" ++ toString i ++ "].bActive"

/-- The sequence of uniform calls issued by `SceneManager::SetupSceneLights`:
lighting enable, the directional light, point light 0 (active), then the
`for (int i = 1; i < 5; i++)` loop deactivating slots 1..4. -/
def setupSceneLightsCalls : List ShaderCall :=
  [.setBool "bUseLighting" true,
   .setVec3 "directionalLight.direction" (-0.2) (-1.0) (-0.3),
   .setVec3 "directionalLight.ambient" 0.1 0.1 0.1,
   .setVec3 "directionalLight.diffuse" 0.6 0.6 0.6,
   .setVec3 "directionalLight.specular" 0.8 0.8 0.8,
   .setBool "directionalLight.bActive" true,
   .setVec3 "pointLights[0].position" 0.0 12.0 0.0,
   .setVec3 "pointLights[0].ambient" 0.05 0.05 0.05,
   .setVec3 "pointLights[0].diffuse" 0.6 0.6 0.6,
   .setVec3 "pointLights[0].specular" 0.8 0.8 0.8,
   .setBool "pointLights[0].bActive" true]
  ++ (List.range 4).map (fun k => .setBool (pointLightActiveName (k + 1)) false)

/-- `SceneManager::SetupSceneLights`: every call goes through
`m_pShaderManager` with no null check. -/
def setupSceneLights (hasShader : Bool) : Except Unit (List ShaderCall) :=
  uploads hasShader setupSceneLightsCalls

/-- The last value uploaded for a boolean uniform `name` in a call trace. -/
def lastBoolUpload (trace : List ShaderCall) (name : String) : Option Bool :=
  (trace.filterMap fun c =>
    match c with
    | .setBool n b => if n = name then some b else none
    | _ => none).getLast?

/-- The material list built by `SceneManager::DefineObjectMaterials`. -/
def defineObjectMaterials : List OBJECT_MATERIAL :=
  [⟨⟨1.0, 1.0, 1.0⟩, ⟨0.3, 0.3, 0.3⟩, 32.0, "woodMat"⟩,
   ⟨⟨1.0, 1.0, 1.0⟩, ⟨0.2, 0.2, 0.2⟩, 16.0, "blackWoodMat"⟩,
   ⟨⟨1.0, 1.0, 1.0⟩, ⟨0.5, 0.5, 0.5⟩, 64.0, "blackMetalMat"⟩,
   ⟨⟨1.0, 1.0, 1.0⟩, ⟨1.0, 1.0, 1.0⟩, 64.0, "monitorScreenMat"⟩,
   ⟨⟨1.0, 1.0, 1.0⟩, ⟨0.5, 0.5, 0.5⟩, 1.0, "whiteMat"⟩]

/-- One call issued by a render method of `SceneManager` (the assembler layer:
calls into its own setters and the mesh collaborator). -/
inductive RenderCall where
  | setTransformations (scaleXYZ : Vec3) (xDeg yDeg zDeg : ℚ) (positionXYZ : Vec3)
  | setShaderMaterial (tag : String)
  | setShaderTexture (tag : String)
  | setShaderColor (r g b a : ℚ)
  | setTextureUVScale (u v : ℚ)
  | drawPlaneMesh
  | drawBoxMesh
  | drawCylinderMesh
deriving DecidableEq, Repr

/-- The call sequence of `SceneManager::RenderKeyboard`: the keyboard base,
then the nested key loop `for (j = 0; j < 6; j++) for (i = 0; i < 17; i++)`
with position `(-4.0f + i / 2.0f, 10.5f, -1.0f + j / 2.0f)`. -/
def renderKeyboard : List RenderCall :=
  [.setTransformations ⟨10.0, 0.25, 4.0⟩ 0 0 0 ⟨0.0, 10.5, 0.0⟩,
   .setShaderMaterial "blackMetalMat",
   .setShaderTexture "black_metal",
   .setTextureUVScale 1.0 1.0,
   .drawBoxMesh]
  ++ (List.range 6).flatMap (fun j =>
      (List.range 17).flatMap (fun i =>
        [.setTransformations ⟨0.35, 0.35, 0.35⟩ 0 0 0
            ⟨-4.0 + (i : ℚ) / 2.0, 10.5, -1.0 + (j : ℚ) / 2.0⟩,
         .setShaderMaterial "whiteMat",
         .setShaderTexture "white",
         .setTextureUVScale 1.0 1.0,
         .drawBoxMesh]))

/-- Whether a render call is a box-mesh draw call. -/
def isBoxDraw (c : RenderCall) : Bool := c = RenderCall.drawBoxMesh

/-- Spec-side: one keyboard key draw block — "position `(-4 + i/2, 10.5,
-1 + j/2)`, scale (0.35,0.35,0.35), material `whiteMat`, texture `white`". -/
def specKeyboardKeyBlock (i j : Nat) : List RenderCall :=
  [.setTransformations ⟨0.35, 0.35, 0.35⟩ 0 0 0
      ⟨-4 + (i : ℚ) / 2, 10.5, -1 + (j : ℚ) / 2⟩,
   .setShaderMaterial "whiteMat",
   .setShaderTexture "white",
   .setTextureUVScale 1.0 1.0,
   .drawBoxMesh]

/-- Spec-side: the full key grid, "for i in [0,17), j in [0,6)". -/
def specKeyboardKeys : List RenderCall :=
  (List.range 6).flatMap (fun j =>
    (List.range 17).flatMap (fun i => specKeyboardKeyBlock i j))

/-- A sequence of `n` `CreateGLTexture` calls, each with a valid 3-channel
image, starting from the constructor state. -/
def iterateLoads : Nat → TexState
  | 0 => initialTexState
  | n + 1 => (createGLTexture (some ⟨64, 64, 3⟩) "wood" (iterateLoads n)).2

/-- A registry state holding one texture tagged "wood" (GL name 1 allocated,
next fresh name 2), used to exercise duplicate-tag loading. -/
def demoDupState : TexState := ⟨⟨2, [1]⟩, [⟨1, "wood"⟩]⟩

/-! ### Transform composer (`SetTransformations` matrix math, over `ℝ`) -/

/-- `glm::radians`: degrees to radians. -/
noncomputable def glmRadians (degrees : ℝ) : ℝ := degrees * (Real.pi / 180)

/-- `glm::normalize` on a 3-vector. -/
noncomputable def glmNormalize (v : ℝ × ℝ × ℝ) : ℝ × ℝ × ℝ :=
  let len := Real.sqrt (v.1 * v.1 + v.2.1 * v.2.1 + v.2.2 * v.2.2)
  (v.1 / len, v.2.1 / len, v.2.2 / len)

/-- `glm::scale(v)` as a mathematical (column-vector convention) 4×4 matrix. -/
noncomputable def glmScale (v : ℝ × ℝ × ℝ) : Matrix (Fin 4) (Fin 4) ℝ :=
  !![v.1, 0, 0, 0;
     0, v.2.1, 0, 0;
     0, 0, v.2.2, 0;
     0, 0, 0, 1]

/-- `glm::translate(v)` as a mathematical 4×4 matrix. -/
noncomputable def glmTranslate (v : ℝ × ℝ × ℝ) : Matrix (Fin 4) (Fin 4) ℝ :=
  !![1, 0, 0, v.1;
     0, 1, 0, v.2.1;
     0, 0, 1, v.2.2;
     0, 0, 0, 1]

/-- `glm::rotate(angle, v)`: the axis is normalized, then the rotation block
is built from `c = cos angle`, `s = sin angle` and `temp = (1 - c) * axis`
exactly as in glm's `rotate` (glm stores columns; entry `(row, col)` here is
glm's `Rotate[col][row]`). -/
noncomputable def glmRotate (angle : ℝ) (v : ℝ × ℝ × ℝ) :
    Matrix (Fin 4) (Fin 4) ℝ :=
  let c := Real.cos angle
  let s := Real.sin angle
  let a := glmNormalize v
  let t0 := (1 - c) * a.1
  let t1 := (1 - c) * a.2.1
  let t2 := (1 - c) * a.2.2
  !![c + t0 * a.1, t1 * a.1 - s * a.2.2, t2 * a.1 + s * a.2.1, 0;
     t0 * a.2.1 + s * a.2.2, c + t1 * a.2.1, t2 * a.2.1 - s * a.1, 0;
     t0 * a.2.2 - s * a.2.1, t1 * a.2.2 + s * a.1, c + t2 * a.2.2, 0;
     0, 0, 0, 1]

/-- The model matrix computed by `SceneManager::SetTransformations`:
`modelView = translation * rotationZ * rotationY * rotationX * scale`, with
`rotationX = glm::rotate(glm::radians(XrotationDegrees), vec3(1,0,0))` etc. -/
noncomputable def setTransformationsModel (scaleXYZ : ℝ × ℝ × ℝ)
    (xDeg yDeg zDeg : ℝ) (positionXYZ : ℝ × ℝ × ℝ) :
    Matrix (Fin 4) (Fin 4) ℝ :=
  glmTranslate positionXYZ
    * glmRotate (glmRadians zDeg) (0, 0, 1)
    * glmRotate (glmRadians yDeg) (0, 1, 0)
    * glmRotate (glmRadians xDeg) (1, 0, 0)
    * glmScale scaleXYZ

/-- Spec-side: the standard rotation matrix about the fixed x-axis. -/
noncomputable def specRotX (a : ℝ) : Matrix (Fin 4) (Fin 4) ℝ :=
  !![1, 0, 0, 0;
     0, Real.cos a, -Real.sin a, 0;
     0, Real.sin a, Real.cos a, 0;
     0, 0, 0, 1]

/-- Spec-side: the standard rotation matrix about the fixed y-axis. -/
noncomputable def specRotY (a : ℝ) : Matrix (Fin 4) (Fin 4) ℝ :=
  !![Real.cos a, 0, Real.sin a, 0;
     0, 1, 0, 0;
     -Real.sin a, 0, Real.cos a, 0;
     0, 0, 0, 1]

/-- Spec-side: the standard rotation matrix about the fixed z-axis. -/
noncomputable def specRotZ (a : ℝ) : Matrix (Fin 4) (Fin 4) ℝ :=
  !![Real.cos a, -Real.sin a, 0, 0;
     Real.sin a, Real.cos a, 0, 0;
     0, 0, 1, 0;
     0, 0, 0, 1]

/-- Spec-side: "`M = T · Rz · Ry · Rx · S`, each rotation matrix built from
the degree value converted to radians about the corresponding fixed axis". -/
noncomputable def specModelMatrix (scaleXYZ : ℝ × ℝ × ℝ)
    (xDeg yDeg zDeg : ℝ) (positionXYZ : ℝ × ℝ × ℝ) :
    Matrix (Fin 4) (Fin 4) ℝ :=
  glmTranslate positionXYZ
    * specRotZ (glmRadians zDeg)
    * specRotY (glmRadians yDeg)
    * specRotX (glmRadians xDeg)
    * glmScale scaleXYZ

/-! ### Helper lemmas -/

/-- `FindMaterial`'s scan leaves the out-parameter untouched when no entry
matches the tag. -/
lemma findMaterialLoop_of_absent (mats : List OBJECT_MATERIAL) (tag : String)
    (material : OBJECT_MATERIAL) (habs : ∀ m ∈ mats, m.tag ≠ tag) :
    findMaterialLoop mats tag material = material := by
  induction mats with
  | nil => rfl
  | cons m rest ih =>
    have hm : m.tag ≠ tag := habs m (List.mem_cons_self m rest)
    simp only [findMaterialLoop, if_neg hm]
    exact ih fun e he => habs e (List.mem_cons_of_mem m he)

/-- The `DestroyGLTextures` loop only allocates: every previously allocated
GL name survives, and one new name is allocated per registered entry. -/
lemma destroyLoop_allocated (texs : List TEXTURE_INFO) (gl : GLState) :
    (destroyLoop texs gl).2.allocated.length =
        gl.allocated.length + texs.length ∧
    ∀ n ∈ gl.allocated, n ∈ (destroyLoop texs gl).2.allocated := by
  induction texs generalizing gl with
  | nil => simp [destroyLoop]
  | cons t rest ih =>
    obtain ⟨h1, h2⟩ := ih ⟨gl.nextName + 1, gl.allocated ++ [gl.nextName]⟩
    simp only [destroyLoop, glGenTexture]
    refine ⟨?_, ?_⟩
    · rw [h1]; simp; omega
    · intro n hn
      exact h2 n (by simp [hn])

/-- Success path of `CreateGLTexture` on a 3- or 4-channel image: one fresh
GL name, one appended registry record. -/
lemma createGLTexture_success (img : ImageData) (tag : String) (st : TexState)
    (h : img.colorChannels = 3 ∨ img.colorChannels = 4) :
    createGLTexture (some img) tag st =
      (true, ⟨(glGenTexture st.gl).2,
              st.m_textureIDs ++ [⟨st.gl.nextName, tag⟩]⟩) := by
  rcases h with h | h <;> simp [createGLTexture, glGenTexture, h]

/-- Scanning past the end of a list that ends in an entry carrying the sought
tag never yields the sentinel. -/
lemma findTextureIDLoop_append_tail (l : List TEXTURE_INFO) (id : Nat)
    (tag : String) : findTextureIDLoop (l ++ [⟨id, tag⟩]) tag ≠ -1 := by
  induction l with
  | nil => simp [findTextureIDLoop]
  | cons t rest ih =>
    by_cases ht : t.tag = tag
    · simp only [List.cons_append, findTextureIDLoop, if_pos ht]
      omega
    · simp only [List.cons_append, findTextureIDLoop, if_neg ht]
      exact ih

/-- When the sought tag already occurs in `l`, the `FindTextureID` scan never
reaches an appended suffix. -/
lemma findTextureIDLoop_append_of_found (l l2 : List TEXTURE_INFO)
    (tag : String) (h : ∃ e ∈ l, e.tag = tag) :
    findTextureIDLoop (l ++ l2) tag = findTextureIDLoop l tag := by
  induction l with
  | nil => simp at h
  | cons t rest ih =>
    by_cases ht : t.tag = tag
    · simp only [List.cons_append, findTextureIDLoop, if_pos ht]
    · have hrest : ∃ e ∈ rest, e.tag = tag := by
        obtain ⟨e, he, hetag⟩ := h
        rcases List.mem_cons.mp he with rfl | hr
        · exact absurd hetag ht
        · exact ⟨e, hr, hetag⟩
      simp only [List.cons_append, findTextureIDLoop, if_neg ht]
      exact ih hrest

/-- When the sought tag already occurs in `l`, the `FindTextureSlot` scan
never reaches an appended suffix. -/
lemma findTextureSlotLoop_append_of_found (l : List TEXTURE_INFO)
    (tag : String) (h : ∃ e ∈ l, e.tag = tag) :
    ∀ (l2 : List TEXTURE_INFO) (index : Int),
      findTextureSlotLoop (l ++ l2) tag index =
        findTextureSlotLoop l tag index := by
  induction l with
  | nil => simp at h
  | cons t rest ih =>
    intro l2 index
    by_cases ht : t.tag = tag
    · simp only [List.cons_append, findTextureSlotLoop, if_pos ht]
    · have hrest : ∃ e ∈ rest, e.tag = tag := by
        obtain ⟨e, he, hetag⟩ := h
        rcases List.mem_cons.mp he with rfl | hr
        · exact absurd hetag ht
        · exact ⟨e, hr, hetag⟩
      simp only [List.cons_append, findTextureSlotLoop, if_neg ht]
      exact ih hrest l2 (index + 1)

/-! ### Claim theorems -/

/-- C1: the claim says `SetShaderMaterial` with a tag absent from a non-empty
material table performs no upload.  The source does the opposite:
`FindMaterial` returns `true` whenever the table is non-empty, so the upload
branch runs and uploads the (uninitialized) local material's diffuse,
specular and shininess values, overwriting the previously uploaded material
uniforms. -/
theorem c1_missing_tag_still_uploads (mats : List OBJECT_MATERIAL)
    (tag : String) (localMat : OBJECT_MATERIAL)
    (hne : 0 < mats.length) (habs : ∀ m ∈ mats, m.tag ≠ tag) :
    setShaderMaterial true mats tag localMat =
      .ok [.setVec3 "material.diffuseColor" localMat.diffuseColor.x
              localMat.diffuseColor.y localMat.diffuseColor.z,
           .setVec3 "material.specularColor" localMat.specularColor.x
              localMat.specularColor.y localMat.specularColor.z,
           .setFloat "material.shininess" localMat.shininess] := by
  have hloop := findMaterialLoop_of_absent mats tag localMat habs
  have hlen : ¬ mats.length = 0 := by omega
  simp only [setShaderMaterial, findMaterial, if_pos hne, if_neg hlen,
    hloop, uploads, if_pos rfl, if_true]

/-- C1 witness: the scene's own material table and the tag "nonexistent". -/
theorem c1_missing_tag_still_uploads_witness :
    0 < defineObjectMaterials.length ∧
    (∀ m ∈ defineObjectMaterials, m.tag ≠ "nonexistent") ∧
    setShaderMaterial true defineObjectMaterials "nonexistent"
        ⟨⟨9, 9, 9⟩, ⟨8, 8, 8⟩, 7, "uninit"⟩ =
      .ok [.setVec3 "material.diffuseColor" 9 9 9,
           .setVec3 "material.specularColor" 8 8 8,
           .setFloat "material.shininess" 7] :=
  ⟨by decide, by decide,
   c1_missing_tag_still_uploads defineObjectMaterials "nonexistent"
     ⟨⟨9, 9, 9⟩, ⟨8, 8, 8⟩, 7, "uninit"⟩ (by decide) (by decide)⟩

/-- C2: the claim says `DestroyGLTextures` frees every registered GPU texture
handle.  The source instead calls `glGenTextures` on each entry, so no
previously allocated texture name is ever freed — every old name stays
allocated and one extra name is allocated per registered entry. -/
theorem c2_destroyGLTextures_frees_nothing (st : TexState) :
    (∀ n ∈ st.gl.allocated, n ∈ (destroyGLTextures st).gl.allocated) ∧
    (destroyGLTextures st).gl.allocated.length =
      st.gl.allocated.length + st.m_loadedTextures := by
  obtain ⟨h1, h2⟩ := destroyLoop_allocated st.m_textureIDs st.gl
  exact ⟨fun n hn => h2 n hn, h1⟩

/-- C3 counterexample: 17 successful loads from the constructor state leave
17 registered textures, exceeding the fixed 16-slot capacity — the claim
that the registered count never exceeds 16 is false. -/
theorem c3_counterexample : MAX_TEXTURES < (iterateLoads 17).m_loadedTextures := by
  decide

/-- C3 amended: `CreateGLTexture` enforces no capacity cap at all — every
successful load appends a record and increments the registered count
unconditionally (the source writes `m_textureIDs[m_loadedTextures]` with no
bounds check against the 16-slot array). -/
theorem c3_no_capacity_check (img : ImageData) (tag : String) (st : TexState)
    (h : img.colorChannels = 3 ∨ img.colorChannels = 4) :
    (createGLTexture (some img) tag st).1 = true ∧
    ((createGLTexture (some img) tag st).2).m_loadedTextures =
      st.m_loadedTextures + 1 := by
  rw [createGLTexture_success img tag st h]
  simp [TexState.m_loadedTextures]

/-- C3 amended witness: a 4-channel load onto the constructor state. -/
theorem c3_no_capacity_check_witness :
    (createGLTexture (some ⟨64, 64, 4⟩) "wood" initialTexState).1 = true ∧
    ((createGLTexture (some ⟨64, 64, 4⟩) "wood" initialTexState).2).m_loadedTextures =
      initialTexState.m_loadedTextures + 1 :=
  c3_no_capacity_check ⟨64, 64, 4⟩ "wood" initialTexState (Or.inr rfl)

/-- `glm::normalize` of the x-axis. -/
lemma glmNormalize_x : glmNormalize (1, 0, 0) = (1, 0, 0) := by
  simp [glmNormalize]

/-- `glm::normalize` of the y-axis. -/
lemma glmNormalize_y : glmNormalize (0, 1, 0) = (0, 1, 0) := by
  simp [glmNormalize]

/-- `glm::normalize` of the z-axis. -/
lemma glmNormalize_z : glmNormalize (0, 0, 1) = (0, 0, 1) := by
  simp [glmNormalize]

/-- glm's axis-angle rotation about the x-axis is the standard fixed-axis
rotation matrix. -/
lemma glmRotate_x (a : ℝ) : glmRotate a (1, 0, 0) = specRotX a := by
  unfold glmRotate specRotX
  rw [glmNormalize_x]
  norm_num

/-- glm's axis-angle rotation about the y-axis is the standard fixed-axis
rotation matrix. -/
lemma glmRotate_y (a : ℝ) : glmRotate a (0, 1, 0) = specRotY a := by
  unfold glmRotate specRotY
  rw [glmNormalize_y]
  norm_num

/-- glm's axis-angle rotation about the z-axis is the standard fixed-axis
rotation matrix. -/
lemma glmRotate_z (a : ℝ) : glmRotate a (0, 0, 1) = specRotZ a := by
  unfold glmRotate specRotZ
  rw [glmNormalize_z]
  norm_num

/-- C4: for every scale, rotation-degree triple and translation,
`SetTransformations` computes exactly `T · Rz · Ry · Rx · S`, each rotation
matrix built from the degree value converted to radians about the
corresponding fixed axis. -/
theorem c4_setTransformations_composition (scaleXYZ : ℝ × ℝ × ℝ)
    (xDeg yDeg zDeg : ℝ) (positionXYZ : ℝ × ℝ × ℝ) :
    setTransformationsModel scaleXYZ xDeg yDeg zDeg positionXYZ =
      specModelMatrix scaleXYZ xDeg yDeg zDeg positionXYZ := by
  unfold setTransformationsModel specModelMatrix
  rw [glmRotate_x, glmRotate_y, glmRotate_z]

/-- The x-coordinate of a key position as the source computes it equals the
spec's form. -/
lemma keyPosX (i : Nat) : (-4.0 + (i : ℚ) / 2.0 : ℚ) = -4 + (i : ℚ) / 2 := by
  norm_num

/-- The z-coordinate of a key position as the source computes it equals the
spec's form. -/
lemma keyPosZ (j : Nat) : (-1.0 + (j : ℚ) / 2.0 : ℚ) = -1 + (j : ℚ) / 2 := by
  norm_num

/-- C5: after the 5 calls rendering the keyboard base, `RenderKeyboard`
issues exactly the spec's key grid — for j in [0,6), i in [0,17), a block of
scale (0.35,0.35,0.35), position `(-4 + i/2, 10.5, -1 + j/2)`, material
"whiteMat", texture "white", then a box draw — and that grid contains
exactly 6×17 = 102 draw calls. -/
theorem c5_keyboard_key_grid :
    renderKeyboard.drop 5 = specKeyboardKeys ∧
    specKeyboardKeys.countP isBoxDraw = 102 := by
  constructor
  · simp only [renderKeyboard, specKeyboardKeys, specKeyboardKeyBlock,
      List.cons_append, List.nil_append, List.drop_succ_cons, List.drop_zero,
      keyPosX, keyPosZ]
  · decide

/-- C6: a decoded image whose channel count is neither 3 nor 4 makes
`CreateGLTexture` return failure with the texture registry unchanged. -/
theorem c6_unsupported_channels_not_registered (img : ImageData)
    (tag : String) (st : TexState)
    (h3 : img.colorChannels ≠ 3) (h4 : img.colorChannels ≠ 4) :
    (createGLTexture (some img) tag st).1 = false ∧
    ((createGLTexture (some img) tag st).2).m_textureIDs = st.m_textureIDs := by
  simp [createGLTexture, h3, h4]

/-- C6 witness: a 2-channel image. -/
theorem c6_unsupported_channels_not_registered_witness :
    (createGLTexture (some ⟨8, 8, 2⟩) "gray" initialTexState).1 = false ∧
    ((createGLTexture (some ⟨8, 8, 2⟩) "gray" initialTexState).2).m_textureIDs =
      initialTexState.m_textureIDs :=
  c6_unsupported_channels_not_registered ⟨8, 8, 2⟩ "gray" initialTexState
    (by decide) (by decide)

/-- C7: in the uniform uploads of `SetupSceneLights`, the last "bActive"
value uploaded for point-light slot `i` is `true` exactly for slot 0 and
`false` for slots 1 through 4. -/
theorem c7_point_light_active_slots : ∀ i : Fin 5,
    lastBoolUpload setupSceneLightsCalls (pointLightActiveName i.val) =
      some (decide (i.val = 0)) := by
  decide

/-- A scan over a list containing an entry with the sought tag never yields
the sentinel (registered IDs are unsigned GL names). -/
lemma findTextureIDLoop_ne_sentinel_of_mem (l : List TEXTURE_INFO)
    (tag : String) (h : ∃ e ∈ l, e.tag = tag) :
    findTextureIDLoop l tag ≠ -1 := by
  induction l with
  | nil => simp at h
  | cons t rest ih =>
    by_cases ht : t.tag = tag
    · simp only [findTextureIDLoop, if_pos ht]
      omega
    · simp only [findTextureIDLoop, if_neg ht]
      refine ih ?_
      obtain ⟨e, he, hetag⟩ := h
      rcases List.mem_cons.mp he with rfl | hr
      · exact absurd hetag ht
      · exact ⟨e, hr, hetag⟩

/-- C8: a successful `CreateGLTexture` of a 3- or 4-channel image followed by
`FindTextureID` on the same tag returns a handle that is not the sentinel
`-1`. -/
theorem c8_load_then_findID_not_sentinel (img : ImageData) (tag : String)
    (st : TexState) (h : img.colorChannels = 3 ∨ img.colorChannels = 4) :
    (createGLTexture (some img) tag st).1 = true ∧
    findTextureID (createGLTexture (some img) tag st).2 tag ≠ -1 := by
  rw [createGLTexture_success img tag st h]
  refine ⟨rfl, ?_⟩
  unfold findTextureID
  exact findTextureIDLoop_ne_sentinel_of_mem _ tag
    ⟨⟨st.gl.nextName, tag⟩, by simp, rfl⟩

/-- C8 witness: a 3-channel load onto the constructor state. -/
theorem c8_load_then_findID_not_sentinel_witness :
    (createGLTexture (some ⟨64, 64, 3⟩) "wood" initialTexState).1 = true ∧
    findTextureID (createGLTexture (some ⟨64, 64, 3⟩) "wood" initialTexState).2
      "wood" ≠ -1 :=
  c8_load_then_findID_not_sentinel ⟨64, 64, 3⟩ "wood" initialTexState
    (Or.inl rfl)

/-- C9: loading a texture under an already-registered tag appends a second
entry sharing the tag (no deduplication, no rejection) and leaves both tag
lookups (`FindTextureID`, `FindTextureSlot`) returning the first-registered
match, unchanged by the new entry. -/
theorem c9_duplicate_tag_first_match_wins (img : ImageData) (tag : String)
    (st : TexState) (hch : img.colorChannels = 3 ∨ img.colorChannels = 4)
    (hdup : ∃ e ∈ st.m_textureIDs, e.tag = tag) :
    ((createGLTexture (some img) tag st).2).m_loadedTextures =
      st.m_loadedTextures + 1 ∧
    ((createGLTexture (some img) tag st).2).m_textureIDs.countP
        (fun t => t.tag = tag) =
      st.m_textureIDs.countP (fun t => t.tag = tag) + 1 ∧
    2 ≤ ((createGLTexture (some img) tag st).2).m_textureIDs.countP
        (fun t => t.tag = tag) ∧
    findTextureID (createGLTexture (some img) tag st).2 tag =
      findTextureID st tag ∧
    findTextureSlot (createGLTexture (some img) tag st).2 tag =
      findTextureSlot st tag := by
  rw [createGLTexture_success img tag st hch]
  have hcount : st.m_textureIDs.countP (fun t => t.tag = tag) +
      List.countP (fun t => t.tag = tag) [(⟨st.gl.nextName, tag⟩ : TEXTURE_INFO)] =
      st.m_textureIDs.countP (fun t => t.tag = tag) + 1 := by
    simp [List.countP_cons]
  have hpos : 0 < st.m_textureIDs.countP (fun t => t.tag = tag) := by
    obtain ⟨e, he, hetag⟩ := hdup
    exact List.countP_pos_iff.mpr ⟨e, he, by simp [hetag]⟩
  refine ⟨?_, ?_, ?_, ?_, ?_⟩
  · simp [TexState.m_loadedTextures]
  · simp only [List.countP_append]
    exact hcount
  · simp only [List.countP_append]
    omega
  · unfold findTextureID
    exact findTextureIDLoop_append_of_found st.m_textureIDs _ tag hdup
  · unfold findTextureSlot
    exact findTextureSlotLoop_append_of_found st.m_textureIDs tag hdup _ 0

/-- C9 witness: a second "wood" load onto a registry already holding one
"wood" entry. -/
theorem c9_duplicate_tag_first_match_wins_witness :
    ((createGLTexture (some ⟨64, 64, 3⟩) "wood" demoDupState).2).m_loadedTextures =
      demoDupState.m_loadedTextures + 1 ∧
    ((createGLTexture (some ⟨64, 64, 3⟩) "wood" demoDupState).2).m_textureIDs.countP
        (fun t => t.tag = "wood") =
      demoDupState.m_textureIDs.countP (fun t => t.tag = "wood") + 1 ∧
    2 ≤ ((createGLTexture (some ⟨64, 64, 3⟩) "wood" demoDupState).2).m_textureIDs.countP
        (fun t => t.tag = "wood") ∧
    findTextureID (createGLTexture (some ⟨64, 64, 3⟩) "wood" demoDupState).2
      "wood" = findTextureID demoDupState "wood" ∧
    findTextureSlot (createGLTexture (some ⟨64, 64, 3⟩) "wood" demoDupState).2
      "wood" = findTextureSlot demoDupState "wood" :=
  c9_duplicate_tag_first_match_wins ⟨64, 64, 3⟩ "wood" demoDupState
    (Or.inl rfl) ⟨⟨1, "wood"⟩, by decide, rfl⟩

/-- C10: with a null shader-manager pointer, `SetTransformations`,
`SetShaderColor`, `SetShaderTexture` and `SetTextureUVScale` upload nothing
and return normally (their uploads sit inside a `NULL != m_pShaderManager`
guard), while `SetShaderMaterial` on a non-empty material table (where
`FindMaterial` always succeeds) and `SetupSceneLights` reach an unguarded
dereference of the null pointer. -/
theorem c10_null_shader_guard_asymmetry (scaleXYZ : Vec3)
    (xDeg yDeg zDeg : ℚ) (positionXYZ : Vec3) (r g b a : ℚ) (st : TexState)
    (textureTag : String) (u v : ℚ) (mats : List OBJECT_MATERIAL)
    (materialTag : String) (localMat : OBJECT_MATERIAL)
    (hmats : 0 < mats.length) :
    setTransformations false scaleXYZ xDeg yDeg zDeg positionXYZ = .ok [] ∧
    setShaderColor false r g b a = .ok [] ∧
    setShaderTexture false st textureTag = .ok [] ∧
    setTextureUVScale false u v = .ok [] ∧
    setShaderMaterial false mats materialTag localMat = .error () ∧
    setupSceneLights false = .error () := by
  have hlen : ¬ mats.length = 0 := by omega
  refine ⟨rfl, rfl, rfl, rfl, ?_, rfl⟩
  simp only [setShaderMaterial, findMaterial, if_pos hmats, if_neg hlen,
    uploads, if_pos rfl, if_true]
  rfl

/-- C10 witness: concrete arguments, the scene's own material table. -/
theorem c10_null_shader_guard_asymmetry_witness :
    setTransformations false ⟨1, 1, 1⟩ 0 0 0 ⟨0, 0, 0⟩ = .ok [] ∧
    setShaderColor false 1 1 1 1 = .ok [] ∧
    setShaderTexture false initialTexState "wood" = .ok [] ∧
    setTextureUVScale false 1 1 = .ok [] ∧
    setShaderMaterial false defineObjectMaterials "woodMat"
      ⟨⟨9, 9, 9⟩, ⟨8, 8, 8⟩, 7, "uninit"⟩ = .error () ∧
    setupSceneLights false = .error () :=
  c10_null_shader_guard_asymmetry ⟨1, 1, 1⟩ 0 0 0 ⟨0, 0, 0⟩ 1 1 1 1
    initialTexState "wood" 1 1 defineObjectMaterials "woodMat"
    ⟨⟨9, 9, 9⟩, ⟨8, 8, 8⟩, 7, "uninit"⟩ (by decide)

end SceneMgr
